import Mathlib

/-!
Shallow embedding of `src/routes/index.ts` of CaoMeiYouRen/r2-image-uploader
(the variant with D1-backed rate limiting and MD5 deduplication).

JS strings are Lean `String`s, `ArrayBuffer`s are lists of bytes, the two
D1 tables (`uploads`, `images`) and the R2 bucket are explicit lists inside
a state record, and every external effect the handlers perform is recorded
in an event log so that "no store happened" style properties are statable.
External collaborators (node `crypto` MD5, the WHATWG URL library, JS
`parseInt`, Cloudflare runtime detection) are modelled as noted on each
definition.
-/

namespace R2Up

/-- JS `ArrayBuffer` contents, modelled as a list of bytes. -/
abbrev Bytes := List Nat

/-- JS truthiness of an optional string header / field:
`undefined`/`null` and the empty string are falsy. -/
def jsTruthy : Option String → Bool
  | none => false
  | some s => !(s == "")

/-- JS `a || b` for an optional string with a string default
(used for `c.req.header('CF-Connecting-IP') || 'unknown'`). -/
def jsOr (o : Option String) (d : String) : String :=
  match o with
  | none => d
  | some s => if s == "" then d else s

/-- JS `s.startsWith(p)` (String.prototype.startsWith): `p`'s character
sequence is a prefix of `s`'s. -/
def jsStartsWith (s p : String) : Bool :=
  p.data.isPrefixOf s.data

/-- Numeric value of a list of decimal digit characters. -/
def digitsVal (ds : List Char) : Nat :=
  ds.foldl (fun a c => a * 10 + (c.toNat - 48)) 0

/-- Models JS `parseInt` on the strings this code feeds it (environment
numbers and `content-length` header values): the longest leading run of
decimal digits gives the value; no leading digit gives `NaN`, modelled as
`none`.  (Radix, sign and whitespace handling of full `parseInt` are not
exercised by these routes.) -/
def jsParseInt (s : String) : Option Nat :=
  let ds := s.data.takeWhile Char.isDigit
  if ds.isEmpty then none else some (digitsVal ds)

/-- `getFileExtension`'s MIME-type table (`mimeTypeMap`). -/
def mimeTypeMap : List (String × String) :=
  [("image/jpeg", "jpg"), ("image/png", "png"), ("image/gif", "gif"),
   ("image/webp", "webp"), ("image/bmp", "bmp"), ("image/tiff", "tiff"),
   ("image/svg+xml", "svg")]

/-- Property names every plain JS object literal inherits from
`Object.prototype`: an access `obj[key]` that misses the own properties
still finds these on the prototype chain, and each is a function (or,
for `__proto__`, an object), hence truthy. -/
def objectProtoProps : List String :=
  ["constructor", "hasOwnProperty", "isPrototypeOf", "propertyIsEnumerable",
   "toLocaleString", "toString", "valueOf", "__proto__", "__defineGetter__",
   "__defineSetter__", "__lookupGetter__", "__lookupSetter__"]

/-- What `mimeTypeMap[contentType] || 'unknown'` can evaluate to: a
string (an own value of the table, or the `'unknown'` fallback), or a
truthy member inherited from `Object.prototype` when the content type
names one. -/
inductive ExtResult where
  | ext : String → ExtResult
  | protoMember : String → ExtResult
  deriving Repr, DecidableEq

/-- JS string coercion applied when the looked-up value is interpolated
into the object-key template literal: a string is itself; an inherited
`Object.prototype` function coerces to its source text.  (No handler
flow reaches the second case: handler content types start with
`image/`, which names no prototype member — see
`not_protoProp_of_image`.) -/
def ExtResult.asKeyString : ExtResult → String
  | .ext s => s
  | .protoMember n => "function " ++ n ++ "() \x7b [native code] \x7d"

/-- `getFileExtension(contentType)`: throws (`Except.error`) when the
content type is JS-falsy (`null` or the empty string); otherwise
evaluates `mimeTypeMap[contentType] || 'unknown'`: an own entry of the
object literal wins; failing that, the access walks the prototype chain,
so a content type naming an `Object.prototype` member yields that
(truthy) inherited member, which `||` keeps; only a genuinely absent key
gives `undefined`, which `||` replaces with `'unknown'`. -/
def getFileExtension (contentType : Option String) : Except String ExtResult :=
  if !jsTruthy contentType then
    .error "Content-Type is required"
  else
    let key := (contentType).getD ""
    match mimeTypeMap.lookup key with
    | some v => .ok (.ext v)
    | none =>
      if objectProtoProps.contains key then .ok (.protoMember key)
      else .ok (.ext "unknown")

/-- Environment bindings (all strings, per `src/types.ts` `Bindings`;
the routes `parseInt` the numeric ones at use sites). -/
structure Env where
  MAX_BODY_SIZE : String
  MAX_UPLOAD_COUNT : String
  R2_BASE_URL : String
  R2_BUCKET_PREFIX : String
  deriving Repr, DecidableEq

/-- A row of the D1 `uploads(ip, date)` table. -/
structure UploadRow where
  ip : String
  date : String
  deriving Repr, DecidableEq

/-- A row of the D1 `images(url, md5, original_url)` table. -/
structure ImageRow where
  url : String
  md5 : String
  original_url : Option String
  deriving Repr, DecidableEq

/-- An object of the R2 bucket: key, bytes and content-type metadata. -/
structure R2Object where
  key : String
  body : Bytes
  contentType : String
  deriving Repr, DecidableEq

/-- External effects a handler can perform, recorded in execution order. -/
inductive Event where
  | uploadsInsert : Event
  | imagesLookup : Event
  | imagesInsert : Event
  | r2Put : Event
  | fetchOut : Event
  | bodyRead : Event
  deriving Repr, DecidableEq

/-- The durable state the handlers act on: the two D1 tables, the R2
bucket, and the log of effects performed so far (newest last). -/
structure St where
  uploads : List UploadRow
  images : List ImageRow
  r2 : List R2Object
  events : List Event
  deriving Repr, DecidableEq

/-- Append one event to the log. -/
def St.log (st : St) (e : Event) : St :=
  { st with events := st.events ++ [e] }

/-- `INSERT INTO uploads (ip, date) VALUES (?, ?)`. -/
def St.insertUpload (st : St) (ip date : String) : St :=
  { st with uploads := ⟨ip, date⟩ :: st.uploads,
            events := st.events ++ [.uploadsInsert] }

/-- `INSERT INTO images (url, md5, original_url) VALUES (?, ?, ?)`. -/
def St.insertImage (st : St) (url md5 : String) (orig : Option String) : St :=
  { st with images := ⟨url, md5, orig⟩ :: st.images,
            events := st.events ++ [.imagesInsert] }

/-- `r2.put(key, body, { httpMetadata: { contentType } })`. -/
def St.putR2 (st : St) (key : String) (body : Bytes) (ct : String) : St :=
  { st with r2 := ⟨key, body, ct⟩ :: st.r2,
            events := st.events ++ [.r2Put] }

/-- `SELECT COUNT(*) as count FROM uploads WHERE ip = ? AND date = ?`. -/
def St.uploadCount (st : St) (ip date : String) : Nat :=
  (st.uploads.filter (fun r => r.ip == ip && r.date == date)).length

/-- `checkIPUploadCount(c, ip)` on a given day: reads the count of
`uploads` rows for `(ip, today)`; if `count >= parseInt(MAX_UPLOAD_COUNT)`
returns `false` without writing, otherwise inserts one row and returns
`true`.  (When `MAX_UPLOAD_COUNT` parses as `NaN` the JS comparison is
false, so the insert happens.) -/
def checkIPUploadCount (env : Env) (today ip : String) (st : St) : Bool × St :=
  let count := st.uploadCount ip today
  match jsParseInt env.MAX_UPLOAD_COUNT with
  | some m => if count ≥ m then (false, st) else (true, st.insertUpload ip today)
  | none => (true, st.insertUpload ip today)

/-- `checkFileExists(c, md5)`:
`SELECT url FROM images WHERE md5 = ?`, `null` on no row. -/
def checkFileExists (md5 : String) (st : St) : Option String × St :=
  ((st.images.find? (fun r => r.md5 == md5)).map (fun r => r.url),
   st.log .imagesLookup)

/-- Models `new URL(R2_BASE_URL); url.pathname = key; url.toString()` of
the WHATWG URL library (an external collaborator), for an origin-form base
URL such as `https://img.example.com`: the base followed by `/` and the
key. -/
def urlWithPathname (base key : String) : String :=
  base ++ "/" ++ key

/-- The object key `uploadImageToR2` generates:
`R2_BUCKET_PREFIX` ++ timestamp-and-random part ++ `.` ++ extension.  The
`dayjs().format(...)` timestamp and `Math.random()` suffix are external
nondeterminism, passed in as the request's `seed`. -/
def makeKey (env : Env) (seed ext : String) : String :=
  env.R2_BUCKET_PREFIX ++ seed ++ "." ++ ext

/-- Which external operations succeed on this run, and what runtime the
code is executing in (`getRuntimeKey()`), modelled as run parameters.
Failure switches are provided for the R2 put and the `images` insert;
the `uploads`-table D1 calls of `checkIPUploadCount` are modelled as
always succeeding (in the source they sit outside `/upload-from-url`'s
try/catch, so a failure there would escape either handler unhandled —
outside this model's scope). -/
structure World where
  runtime : String
  r2PutOk : Bool
  imagesInsertOk : Bool
  deriving Repr, DecidableEq

/-- `uploadImageToR2(c, body, contentType)`: derives the extension
(`getFileExtension` may throw), generates the key, writes the object to R2
(which may itself fail; a failure throws before anything is written), and
returns the canonical URL built from `R2_BASE_URL` and the key. -/
def uploadImageToR2 (env : Env) (w : World) (seed : String) (body : Bytes)
    (contentType : String) (st : St) : Except String String × St :=
  match getFileExtension (some contentType) with
  | .error e => (.error e, st)
  | .ok r =>
    if !w.r2PutOk then (.error "R2 put failed", st)
    else
      let key := makeKey env seed r.asKeyString
      (.ok (urlWithPathname env.R2_BASE_URL key), st.putR2 key body contentType)

/-- Modelled from the spec: the persisted `images` schema declares its
`md5` column `UNIQUE` (§6 — the DDL itself is not under `src/`), so the
routes' `INSERT INTO images (url, md5, original_url)` statement throws a
unique-constraint violation when a row with the same fingerprint already
exists at insert time; the `World` switch models an infrastructure
failure of the same statement. -/
def d1InsertImage (w : World) (st : St) (url md5 : String) (orig : Option String) :
    Except String St :=
  if !w.imagesInsertOk then .error "D1 images insert failed"
  else if (st.images.find? (fun r => r.md5 == md5)).isSome then
    .error "UNIQUE constraint failed: images.md5"
  else .ok (st.insertImage url md5 orig)

/-- A response the handler returns, or an exception that escaped it. -/
inductive RespBody where
  | ok : String → RespBody
  | err : String → RespBody
  deriving Repr, DecidableEq

/-- Terminal outcome of a request: a `(status, json-body)` response, or an
unhandled exception propagating out of the handler. -/
inductive Outcome where
  | response : Nat → RespBody → Outcome
  | unhandled : String → Outcome
  deriving Repr, DecidableEq

/-- The inbound request of `POST /upload-from-body`: the two headers the
handler reads, the client-IP header, the raw body bytes, and the
key-generation seed for this request. -/
structure BodyRequest where
  contentType : Option String
  contentLength : Option String
  cfConnectingIP : Option String
  body : Bytes
  seed : String
  deriving Repr, DecidableEq

/-- The upstream response `fetch(url)` yields for `/upload-from-url`:
its two headers and its body bytes. -/
structure FetchResp where
  contentType : Option String
  contentLength : Option String
  body : Bytes
  deriving Repr, DecidableEq

/-- The inbound request of `POST /upload-from-url`: the `url` field of its
JSON body, the client-IP header, what the outbound `fetch` of that url
returns (`none` models a fetch that throws), and the key seed. -/
structure UrlRequest where
  url : Option String
  cfConnectingIP : Option String
  fetchResponse : Option FetchResp
  seed : String
  deriving Repr, DecidableEq

/-- `!contentType || !contentType.startsWith('image/')`. -/
def badFormat (ct : Option String) : Bool :=
  !jsTruthy ct || !jsStartsWith (ct.getD "") "image/"

/-- `contentLength && parseInt(contentLength) > MAX_BODY_SIZE` (with
`MAX_BODY_SIZE = parseInt(env.MAX_BODY_SIZE)`; any comparison against a
`NaN` side is false in JS). -/
def sizeExceeds (cl : Option String) (maxBodySize : String) : Bool :=
  if !jsTruthy cl then false
  else
    match jsParseInt (cl.getD ""), jsParseInt maxBodySize with
    | some n, some m => n > m
    | _, _ => false

/-- The handler of `POST /upload-from-body` (the D1-backed variant):
runtime gate, content-type and content-length validation, per-IP
admission, body read, MD5 dedup lookup, store, index write.  The handler
has no try/catch, so a throwing step yields `Outcome.unhandled` with
whatever state the completed effects left behind.  `md5fn` stands for
`calculateMD5` (node `crypto`, external): a pure, deterministic function
of the bytes. -/
def uploadFromBody (env : Env) (w : World) (today : String)
    (md5fn : Bytes → String) (req : BodyRequest) (st : St) : Outcome × St :=
  if !(w.runtime == "workerd") then
    (.response 500 (.err "This function is only available in Cloudflare Workers"), st)
  else if badFormat req.contentType then
    (.response 400 (.err "Invalid image format"), st)
  else if sizeExceeds req.contentLength env.MAX_BODY_SIZE then
    (.response 400 (.err "Image size exceeds the limit"), st)
  else
    let ip := jsOr req.cfConnectingIP "unknown"
    match checkIPUploadCount env today ip st with
    | (false, st) => (.response 429 (.err "Upload limit exceeded for this IP"), st)
    | (true, st) =>
      let st := st.log .bodyRead
      let md5 := md5fn req.body
      match checkFileExists md5 st with
      | (some existingUrl, st) => (.response 200 (.ok existingUrl), st)
      | (none, st) =>
        match uploadImageToR2 env w req.seed req.body (req.contentType.getD "") st with
        | (.error e, st) => (.unhandled e, st)
        | (.ok imageUrl, st) =>
          match d1InsertImage w st imageUrl md5 none with
          | .error e => (.unhandled e, st)
          | .ok st => (.response 200 (.ok imageUrl), st)

/-- The handler of `POST /upload-from-url` (the D1-backed variant):
runtime gate, url presence, per-IP admission, own-URL short-circuit, then
a try/catch around fetch, validation, dedup, store and index write; any
exception inside the try is answered with
`500 {error: 'Failed to upload image'}`.  The steps before the try — the
JSON body parse (modelled as the already-parsed `req.url`) and the D1
calls of `checkIPUploadCount` — can also throw in the source, outside
the catch; this model treats those external steps as non-throwing, so
theorems about this definition do not speak about such escapes. -/
def uploadFromUrl (env : Env) (w : World) (today : String)
    (md5fn : Bytes → String) (req : UrlRequest) (st : St) : Outcome × St :=
  if !(w.runtime == "workerd") then
    (.response 500 (.err "This function is only available in Cloudflare Workers"), st)
  else if !jsTruthy req.url then
    (.response 400 (.err "URL is required"), st)
  else
    let url := req.url.getD ""
    let ip := jsOr req.cfConnectingIP "unknown"
    match checkIPUploadCount env today ip st with
    | (false, st) => (.response 429 (.err "Upload limit exceeded for this IP"), st)
    | (true, st) =>
      if jsStartsWith url env.R2_BASE_URL then
        (.response 200 (.ok url), st)
      else
        let st := st.log .fetchOut
        match req.fetchResponse with
        | none => (.response 500 (.err "Failed to upload image"), st)
        | some resp =>
          if badFormat resp.contentType then
            (.response 400 (.err "Invalid image format"), st)
          else if sizeExceeds resp.contentLength env.MAX_BODY_SIZE then
            (.response 400 (.err "Image size exceeds the limit"), st)
          else
            let st := st.log .bodyRead
            let md5 := md5fn resp.body
            match checkFileExists md5 st with
            | (some existingUrl, st) => (.response 200 (.ok existingUrl), st)
            | (none, st) =>
              match uploadImageToR2 env w req.seed resp.body (resp.contentType.getD "") st with
              | (.error _, st) => (.response 500 (.err "Failed to upload image"), st)
              | (.ok imageUrl, st) =>
                match d1InsertImage w st imageUrl md5 (some url) with
                | .error _ => (.response 500 (.err "Failed to upload image"), st)
                | .ok st => (.response 200 (.ok imageUrl), st)

/-! ## Interleaving model of the dedup-and-store section

The dedup-critical section of `/upload-from-body` — everything after body
read: `checkFileExists` of the MD5, then on a miss `uploadImageToR2`, then
the `images` insert — has three `await` points.  Two concurrent requests
interleave at exactly those points; each request's progress through them
is a phase, and a schedule says which request performs its next step. -/

/-- Progress of one in-flight request through the dedup-and-store
section: not yet looked-up, looked-up-and-missed, stored-to-R2 (with its
canonical URL) but not yet indexed, responded with a URL, or aborted by a
thrown step. -/
inductive DPhase where
  | start : DPhase
  | missed : DPhase
  | stored : String → DPhase
  | finished : String → DPhase
  | failed : String → DPhase
  deriving Repr, DecidableEq

/-- One step of one request inside the dedup-and-store section, acting on
the shared durable state: exactly the code's `checkFileExists`,
`uploadImageToR2` and `INSERT INTO images` operations, in order. -/
def dstep (env : Env) (w : World) (md5fn : Bytes → String) (r : BodyRequest)
    (ph : DPhase) (st : St) : DPhase × St :=
  match ph with
  | .start =>
    match checkFileExists (md5fn r.body) st with
    | (some u, st) => (.finished u, st)
    | (none, st) => (.missed, st)
  | .missed =>
    match uploadImageToR2 env w r.seed r.body (r.contentType.getD "") st with
    | (.error e, st) => (.failed e, st)
    | (.ok url, st) => (.stored url, st)
  | .stored url =>
    match d1InsertImage w st url (md5fn r.body) none with
    | .error e => (.failed e, st)
    | .ok st => (.finished url, st)
  | .finished u => (.finished u, st)
  | .failed e => (.failed e, st)

/-- Run two requests `ra`, `rb` through the dedup-and-store section under
a schedule: `true` lets `ra` take its next step, `false` lets `rb`. -/
def runSched (env : Env) (w : World) (md5fn : Bytes → String)
    (ra rb : BodyRequest) (sched : List Bool) (pa pb : DPhase) (st : St) :
    DPhase × DPhase × St :=
  match sched with
  | [] => (pa, pb, st)
  | true :: rest =>
    let s := dstep env w md5fn ra pa st
    runSched env w md5fn ra rb rest s.1 pb s.2
  | false :: rest =>
    let s := dstep env w md5fn rb pb st
    runSched env w md5fn ra rb rest pa s.1 s.2

/-! ## Derived abbreviations and concrete fixtures -/

/-- The extension `uploadImageToR2` ends up using for a truthy content
type: the `mimeTypeMap` entry, defaulting to `"unknown"`. -/
def extOf (ct : Option String) : String :=
  (mimeTypeMap.lookup (ct.getD "")).getD "unknown"

/-- The canonical URL a store with this seed and content type returns. -/
def canonicalUrl (env : Env) (seed : String) (ct : Option String) : String :=
  urlWithPathname env.R2_BASE_URL (makeKey env seed (extOf ct))

/-- A concrete environment for witnesses: 10 MiB body limit, 10 uploads
per IP per day, origin-form base URL, `images/` key prefix. -/
def env0 : Env := ⟨"10485760", "10", "https://img.example.com", "images/"⟩

/-- A run on the Cloudflare Workers runtime with all external writes
succeeding. -/
def w0 : World := ⟨"workerd", true, true⟩

/-- Empty tables, empty bucket, empty log. -/
def st0 : St := ⟨[], [], [], []⟩

/-- Concrete stand-in for `calculateMD5` in witnesses: the claims depend
only on the digest being a pure, deterministic function of the bytes. -/
def md5fn0 : Bytes → String :=
  fun b => Nat.repr (b.foldl (fun a x => a * 257 + x + 1) 7)

/-! ## Helper lemmas -/

theorem jsTruthy_some {s : String} (h : s ≠ "") : jsTruthy (some s) = true := by
  simp [jsTruthy, h]

theorem jsStartsWith_urlWithPathname (base key : String) :
    jsStartsWith (urlWithPathname base key) base = true := by
  simp only [jsStartsWith, urlWithPathname, List.isPrefixOf_iff_prefix,
    String.data_append]
  exact (List.prefix_append _ _).trans (by rw [List.append_assoc])

theorem urlWithPathname_ne (base key : String) : urlWithPathname base key ≠ "" := by
  intro h
  have hd := congrArg String.data h
  simp [urlWithPathname] at hd

theorem badFormat_jsTruthy {ct : Option String} (h : badFormat ct = false) :
    jsTruthy ct = true := by
  simp [badFormat] at h
  exact h.1

theorem not_protoProp_of_image {s : String} (h : jsStartsWith s "image/" = true) :
    s ∉ objectProtoProps := by
  intro hm
  simp only [objectProtoProps, List.mem_cons, List.not_mem_nil, or_false] at hm
  rcases hm with rfl | rfl | rfl | rfl | rfl | rfl | rfl | rfl | rfl | rfl | rfl | rfl <;>
    exact absurd h (by decide)

theorem getFileExtension_of_image (ct : Option String) (h : badFormat ct = false) :
    getFileExtension (some (ct.getD "")) = .ok (.ext (extOf ct)) := by
  simp only [badFormat, Bool.or_eq_false_iff, Bool.not_eq_true'] at h
  have hc := not_protoProp_of_image (s := ct.getD "") (by simpa using h.2)
  cases ct with
  | none => simp [jsTruthy] at h
  | some s =>
    have hs : ¬(s = "") := by
      intro he
      rw [he] at h
      simp [jsTruthy] at h
    simp only [Option.getD] at hc ⊢
    cases hl : mimeTypeMap.lookup s with
    | some v => simp [getFileExtension, jsTruthy, hs, hl, extOf]
    | none => simp [getFileExtension, jsTruthy, hs, hl, hc, extOf]

theorem St.uploadCount_insertUpload (st : St) (ip d : String) :
    (st.insertUpload ip d).uploadCount ip d = st.uploadCount ip d + 1 := by
  simp [St.insertUpload, St.uploadCount, List.filter]

theorem St.uploadCount_insertUpload_le (st : St) (ip d ip' d' : String) :
    (st.insertUpload ip' d').uploadCount ip d ≤ st.uploadCount ip d + 1 := by
  simp only [St.insertUpload, St.uploadCount, List.filter]
  split
  · simp
  · simp

theorem checkIPUploadCount_pass {env : Env} {today ip : String} {st : St} {m : Nat}
    (hm : jsParseInt env.MAX_UPLOAD_COUNT = some m)
    (hq : st.uploadCount ip today < m) :
    checkIPUploadCount env today ip st = (true, st.insertUpload ip today) := by
  simp [checkIPUploadCount, hm, Nat.not_le.mpr hq]

theorem checkIPUploadCount_refuse {env : Env} {today ip : String} {st : St} {m : Nat}
    (hm : jsParseInt env.MAX_UPLOAD_COUNT = some m)
    (hq : m ≤ st.uploadCount ip today) :
    checkIPUploadCount env today ip st = (false, st) := by
  simp [checkIPUploadCount, hm, hq]

/-- The state after an accepted `/upload-from-body` request whose
fingerprint missed the dedup index: admission insert, body read, dedup
lookup, R2 put, `images` insert, in that order. -/
def afterBodyMiss (env : Env) (today : String) (md5fn : Bytes → String)
    (req : BodyRequest) (st : St) : St :=
  ((((st.insertUpload (jsOr req.cfConnectingIP "unknown") today).log .bodyRead).log
      .imagesLookup).putR2 (makeKey env req.seed (extOf req.contentType)) req.body
      (req.contentType.getD "")).insertImage (canonicalUrl env req.seed req.contentType)
    (md5fn req.body) none

theorem afterBodyMiss_images (env : Env) (today : String) (md5fn : Bytes → String)
    (req : BodyRequest) (st : St) :
    (afterBodyMiss env today md5fn req st).images =
      ⟨canonicalUrl env req.seed req.contentType, md5fn req.body, none⟩ :: st.images := rfl

theorem afterBodyMiss_r2 (env : Env) (today : String) (md5fn : Bytes → String)
    (req : BodyRequest) (st : St) :
    (afterBodyMiss env today md5fn req st).r2 =
      ⟨makeKey env req.seed (extOf req.contentType), req.body,
       req.contentType.getD ""⟩ :: st.r2 := rfl

theorem afterBodyMiss_uploadCount (env : Env) (today : String) (md5fn : Bytes → String)
    (req : BodyRequest) (st : St) (ip d : String) :
    (afterBodyMiss env today md5fn req st).uploadCount ip d =
      (st.insertUpload (jsOr req.cfConnectingIP "unknown") today).uploadCount ip d := rfl

/-- Accepted `/upload-from-body` request whose fingerprint is not yet in
the `images` table: responds `200` with the fresh canonical URL, and the
final state is the admission insert, body read, dedup lookup, R2 put and
`images` insert, in that order. -/
theorem uploadFromBody_accept_miss
    (env : Env) (w : World) (today : String) (md5fn : Bytes → String)
    (req : BodyRequest) (st : St) (m : Nat)
    (hw : w.runtime = "workerd")
    (hfmt : badFormat req.contentType = false)
    (hsz : sizeExceeds req.contentLength env.MAX_BODY_SIZE = false)
    (hm : jsParseInt env.MAX_UPLOAD_COUNT = some m)
    (hq : st.uploadCount (jsOr req.cfConnectingIP "unknown") today < m)
    (hr2 : w.r2PutOk = true) (hins : w.imagesInsertOk = true)
    (hmiss : st.images.find? (fun r => r.md5 == md5fn req.body) = none) :
    uploadFromBody env w today md5fn req st =
      (.response 200 (.ok (canonicalUrl env req.seed req.contentType)),
       afterBodyMiss env today md5fn req st) := by
  have hext := getFileExtension_of_image req.contentType hfmt
  simp [uploadFromBody, hw, hfmt, hsz, checkIPUploadCount_pass hm hq, checkFileExists,
    St.insertUpload, St.log, hmiss, uploadImageToR2, hext, hr2, hins, canonicalUrl,
    St.putR2, St.insertImage, afterBodyMiss, d1InsertImage, ExtResult.asKeyString]

/-- Accepted `/upload-from-body` request whose fingerprint is already in
the `images` table: responds `200` with the recorded URL; the only writes
are the admission insert and the body read, and the dedup lookup — no R2
put, no `images` insert. -/
theorem uploadFromBody_accept_hit
    (env : Env) (w : World) (today : String) (md5fn : Bytes → String)
    (req : BodyRequest) (st : St) (m : Nat) (row : ImageRow)
    (hw : w.runtime = "workerd")
    (hfmt : badFormat req.contentType = false)
    (hsz : sizeExceeds req.contentLength env.MAX_BODY_SIZE = false)
    (hm : jsParseInt env.MAX_UPLOAD_COUNT = some m)
    (hq : st.uploadCount (jsOr req.cfConnectingIP "unknown") today < m)
    (hhit : st.images.find? (fun r => r.md5 == md5fn req.body) = some row) :
    uploadFromBody env w today md5fn req st =
      (.response 200 (.ok row.url),
       ((st.insertUpload (jsOr req.cfConnectingIP "unknown") today).log .bodyRead).log
         .imagesLookup) := by
  simp [uploadFromBody, hw, hfmt, hsz, checkIPUploadCount_pass hm hq, checkFileExists,
    St.insertUpload, St.log, hhit]

/-- `/upload-from-url` with a truthy `url` that starts with `R2_BASE_URL`,
from an admitted client: echoes the url with `200`; the only state change
is the admission insert. -/
theorem uploadFromUrl_own_url
    (env : Env) (w : World) (today : String) (md5fn : Bytes → String)
    (req : UrlRequest) (st : St) (m : Nat) (u : String)
    (hw : w.runtime = "workerd")
    (hurl : req.url = some u) (hu : u ≠ "")
    (hpre : jsStartsWith u env.R2_BASE_URL = true)
    (hm : jsParseInt env.MAX_UPLOAD_COUNT = some m)
    (hq : st.uploadCount (jsOr req.cfConnectingIP "unknown") today < m) :
    uploadFromUrl env w today md5fn req st =
      (.response 200 (.ok u),
       st.insertUpload (jsOr req.cfConnectingIP "unknown") today) := by
  simp [uploadFromUrl, hw, hurl, jsTruthy_some hu, checkIPUploadCount_pass hm hq, hpre]

/-- `/upload-from-body` with a failing content-type check: `400` and the
state is untouched. -/
theorem uploadFromBody_badFormat
    (env : Env) (w : World) (today : String) (md5fn : Bytes → String)
    (req : BodyRequest) (st : St)
    (hw : w.runtime = "workerd")
    (hfmt : badFormat req.contentType = true) :
    uploadFromBody env w today md5fn req st =
      (.response 400 (.err "Invalid image format"), st) := by
  simp [uploadFromBody, hw, hfmt]

/-- `/upload-from-body` with a passing content-type check but a declared
length over the ceiling: `400` and the state is untouched. -/
theorem uploadFromBody_tooLarge
    (env : Env) (w : World) (today : String) (md5fn : Bytes → String)
    (req : BodyRequest) (st : St)
    (hw : w.runtime = "workerd")
    (hfmt : badFormat req.contentType = false)
    (hsz : sizeExceeds req.contentLength env.MAX_BODY_SIZE = true) :
    uploadFromBody env w today md5fn req st =
      (.response 400 (.err "Image size exceeds the limit"), st) := by
  simp [uploadFromBody, hw, hfmt, hsz]

/-- `/upload-from-body` with passing header checks from a client at or
over quota: `429` and the state is untouched. -/
theorem uploadFromBody_rateLimited
    (env : Env) (w : World) (today : String) (md5fn : Bytes → String)
    (req : BodyRequest) (st : St) (m : Nat)
    (hw : w.runtime = "workerd")
    (hfmt : badFormat req.contentType = false)
    (hsz : sizeExceeds req.contentLength env.MAX_BODY_SIZE = false)
    (hm : jsParseInt env.MAX_UPLOAD_COUNT = some m)
    (hq : m ≤ st.uploadCount (jsOr req.cfConnectingIP "unknown") today) :
    uploadFromBody env w today md5fn req st =
      (.response 429 (.err "Upload limit exceeded for this IP"), st) := by
  simp [uploadFromBody, hw, hfmt, hsz, checkIPUploadCount_refuse hm hq]

/-- `/upload-from-url` with a truthy url from a client at or over quota:
`429` and the state is untouched. -/
theorem uploadFromUrl_rateLimited
    (env : Env) (w : World) (today : String) (md5fn : Bytes → String)
    (req : UrlRequest) (st : St) (m : Nat) (u : String)
    (hw : w.runtime = "workerd")
    (hurl : req.url = some u) (hu : u ≠ "")
    (hm : jsParseInt env.MAX_UPLOAD_COUNT = some m)
    (hq : m ≤ st.uploadCount (jsOr req.cfConnectingIP "unknown") today) :
    uploadFromUrl env w today md5fn req st =
      (.response 429 (.err "Upload limit exceeded for this IP"), st) := by
  simp [uploadFromUrl, hw, hurl, jsTruthy_some hu, checkIPUploadCount_refuse hm hq]

/-- `/upload-from-url` from an admitted client, for a foreign url whose
fetch yields a non-image content type: `400 Invalid image format` — but
the admission insert has already happened. -/
theorem uploadFromUrl_badFormat
    (env : Env) (w : World) (today : String) (md5fn : Bytes → String)
    (req : UrlRequest) (st : St) (m : Nat) (u : String) (resp : FetchResp)
    (hw : w.runtime = "workerd")
    (hurl : req.url = some u) (hu : u ≠ "")
    (hpre : jsStartsWith u env.R2_BASE_URL = false)
    (hm : jsParseInt env.MAX_UPLOAD_COUNT = some m)
    (hq : st.uploadCount (jsOr req.cfConnectingIP "unknown") today < m)
    (hresp : req.fetchResponse = some resp)
    (hfmt : badFormat resp.contentType = true) :
    uploadFromUrl env w today md5fn req st =
      (.response 400 (.err "Invalid image format"),
       (st.insertUpload (jsOr req.cfConnectingIP "unknown") today).log .fetchOut) := by
  simp [uploadFromUrl, hw, hurl, jsTruthy_some hu, checkIPUploadCount_pass hm hq, hpre,
    hresp, hfmt]

/-- The state after an accepted `/upload-from-url` request for a foreign
url whose fetched bytes missed the dedup index: admission insert,
outbound fetch, body read, dedup lookup, R2 put, `images` insert (with
the source url), in that order. -/
def afterUrlMiss (env : Env) (today : String) (md5fn : Bytes → String)
    (req : UrlRequest) (resp : FetchResp) (u : String) (st : St) : St :=
  (((((st.insertUpload (jsOr req.cfConnectingIP "unknown") today).log .fetchOut).log
      .bodyRead).log .imagesLookup).putR2 (makeKey env req.seed (extOf resp.contentType))
      resp.body (resp.contentType.getD "")).insertImage
    (canonicalUrl env req.seed resp.contentType) (md5fn resp.body) (some u)

theorem afterUrlMiss_r2 (env : Env) (today : String) (md5fn : Bytes → String)
    (req : UrlRequest) (resp : FetchResp) (u : String) (st : St) :
    (afterUrlMiss env today md5fn req resp u st).r2 =
      ⟨makeKey env req.seed (extOf resp.contentType), resp.body,
       resp.contentType.getD ""⟩ :: st.r2 := rfl

/-- Accepted `/upload-from-url` request for a foreign url whose fetched
bytes are not yet in the `images` table: `200` with the fresh canonical
URL; the state records admission, fetch, body read, lookup, R2 put and
`images` insert (with the source url). -/
theorem uploadFromUrl_accept_miss
    (env : Env) (w : World) (today : String) (md5fn : Bytes → String)
    (req : UrlRequest) (st : St) (m : Nat) (u : String) (resp : FetchResp)
    (hw : w.runtime = "workerd")
    (hurl : req.url = some u) (hu : u ≠ "")
    (hpre : jsStartsWith u env.R2_BASE_URL = false)
    (hm : jsParseInt env.MAX_UPLOAD_COUNT = some m)
    (hq : st.uploadCount (jsOr req.cfConnectingIP "unknown") today < m)
    (hresp : req.fetchResponse = some resp)
    (hfmt : badFormat resp.contentType = false)
    (hsz : sizeExceeds resp.contentLength env.MAX_BODY_SIZE = false)
    (hr2 : w.r2PutOk = true) (hins : w.imagesInsertOk = true)
    (hmiss : st.images.find? (fun r => r.md5 == md5fn resp.body) = none) :
    uploadFromUrl env w today md5fn req st =
      (.response 200 (.ok (canonicalUrl env req.seed resp.contentType)),
       afterUrlMiss env today md5fn req resp u st) := by
  have hext := getFileExtension_of_image resp.contentType hfmt
  simp [uploadFromUrl, hw, hurl, jsTruthy_some hu, checkIPUploadCount_pass hm hq, hpre,
    hresp, hfmt, hsz, checkFileExists, St.insertUpload, St.log, hmiss, uploadImageToR2,
    hext, hr2, hins, canonicalUrl, St.putR2, St.insertImage, afterUrlMiss, d1InsertImage,
    ExtResult.asKeyString]

/-- `/upload-from-url` from an admitted client, for a foreign url with a
good format but a declared length over the ceiling: `400 Image size
exceeds the limit` — the admission insert has already happened. -/
theorem uploadFromUrl_tooLarge
    (env : Env) (w : World) (today : String) (md5fn : Bytes → String)
    (req : UrlRequest) (st : St) (m : Nat) (u : String) (resp : FetchResp)
    (hw : w.runtime = "workerd")
    (hurl : req.url = some u) (hu : u ≠ "")
    (hpre : jsStartsWith u env.R2_BASE_URL = false)
    (hm : jsParseInt env.MAX_UPLOAD_COUNT = some m)
    (hq : st.uploadCount (jsOr req.cfConnectingIP "unknown") today < m)
    (hresp : req.fetchResponse = some resp)
    (hfmt : badFormat resp.contentType = false)
    (hsz : sizeExceeds resp.contentLength env.MAX_BODY_SIZE = true) :
    uploadFromUrl env w today md5fn req st =
      (.response 400 (.err "Image size exceeds the limit"),
       (st.insertUpload (jsOr req.cfConnectingIP "unknown") today).log .fetchOut) := by
  simp [uploadFromUrl, hw, hurl, jsTruthy_some hu, checkIPUploadCount_pass hm hq, hpre,
    hresp, hfmt, hsz]

/-- `/upload-from-url` from an admitted client whose outbound fetch
throws: caught by the try/catch and answered with the structured
`500 Failed to upload image`. -/
theorem uploadFromUrl_fetchThrow
    (env : Env) (w : World) (today : String) (md5fn : Bytes → String)
    (req : UrlRequest) (st : St) (m : Nat) (u : String)
    (hw : w.runtime = "workerd")
    (hurl : req.url = some u) (hu : u ≠ "")
    (hpre : jsStartsWith u env.R2_BASE_URL = false)
    (hm : jsParseInt env.MAX_UPLOAD_COUNT = some m)
    (hq : st.uploadCount (jsOr req.cfConnectingIP "unknown") today < m)
    (hresp : req.fetchResponse = none) :
    uploadFromUrl env w today md5fn req st =
      (.response 500 (.err "Failed to upload image"),
       (st.insertUpload (jsOr req.cfConnectingIP "unknown") today).log .fetchOut) := by
  simp [uploadFromUrl, hw, hurl, jsTruthy_some hu, checkIPUploadCount_pass hm hq, hpre,
    hresp]

/-- `/upload-from-url` accepted dedup-missing request whose R2 put
throws: caught by the try/catch and answered with the structured
`500 Failed to upload image`; nothing was written to R2. -/
theorem uploadFromUrl_putFails
    (env : Env) (w : World) (today : String) (md5fn : Bytes → String)
    (req : UrlRequest) (st : St) (m : Nat) (u : String) (resp : FetchResp)
    (hw : w.runtime = "workerd")
    (hurl : req.url = some u) (hu : u ≠ "")
    (hpre : jsStartsWith u env.R2_BASE_URL = false)
    (hm : jsParseInt env.MAX_UPLOAD_COUNT = some m)
    (hq : st.uploadCount (jsOr req.cfConnectingIP "unknown") today < m)
    (hresp : req.fetchResponse = some resp)
    (hfmt : badFormat resp.contentType = false)
    (hsz : sizeExceeds resp.contentLength env.MAX_BODY_SIZE = false)
    (hmiss : st.images.find? (fun r => r.md5 == md5fn resp.body) = none)
    (hr2 : w.r2PutOk = false) :
    uploadFromUrl env w today md5fn req st =
      (.response 500 (.err "Failed to upload image"),
       (((st.insertUpload (jsOr req.cfConnectingIP "unknown") today).log .fetchOut).log
           .bodyRead).log .imagesLookup) := by
  have hext := getFileExtension_of_image resp.contentType hfmt
  simp [uploadFromUrl, hw, hurl, jsTruthy_some hu, checkIPUploadCount_pass hm hq, hpre,
    hresp, hfmt, hsz, checkFileExists, St.insertUpload, St.log, hmiss, uploadImageToR2,
    hext, hr2]

/-- `/upload-from-url` accepted dedup-missing request whose `images`
index insert throws after a successful R2 put: caught by the try/catch
and answered with the structured `500 Failed to upload image`; the
stored object remains, orphaned. -/
theorem uploadFromUrl_insertFails
    (env : Env) (w : World) (today : String) (md5fn : Bytes → String)
    (req : UrlRequest) (st : St) (m : Nat) (u : String) (resp : FetchResp)
    (hw : w.runtime = "workerd")
    (hurl : req.url = some u) (hu : u ≠ "")
    (hpre : jsStartsWith u env.R2_BASE_URL = false)
    (hm : jsParseInt env.MAX_UPLOAD_COUNT = some m)
    (hq : st.uploadCount (jsOr req.cfConnectingIP "unknown") today < m)
    (hresp : req.fetchResponse = some resp)
    (hfmt : badFormat resp.contentType = false)
    (hsz : sizeExceeds resp.contentLength env.MAX_BODY_SIZE = false)
    (hmiss : st.images.find? (fun r => r.md5 == md5fn resp.body) = none)
    (hr2 : w.r2PutOk = true) (hins : w.imagesInsertOk = false) :
    uploadFromUrl env w today md5fn req st =
      (.response 500 (.err "Failed to upload image"),
       ((((st.insertUpload (jsOr req.cfConnectingIP "unknown") today).log .fetchOut).log
           .bodyRead).log .imagesLookup).putR2 (makeKey env req.seed (extOf resp.contentType))
         resp.body (resp.contentType.getD "")) := by
  have hext := getFileExtension_of_image resp.contentType hfmt
  simp [uploadFromUrl, hw, hurl, jsTruthy_some hu, checkIPUploadCount_pass hm hq, hpre,
    hresp, hfmt, hsz, checkFileExists, St.insertUpload, St.log, hmiss, uploadImageToR2,
    hext, hr2, hins, St.putR2, d1InsertImage, ExtResult.asKeyString]

/-- `/upload-from-body` accepted dedup-missing request whose `images`
index insert throws after a successful R2 put: the handler has no
try/catch, so the exception escapes; the stored object remains,
orphaned and unindexed. -/
theorem uploadFromBody_insertFails
    (env : Env) (w : World) (today : String) (md5fn : Bytes → String)
    (req : BodyRequest) (st : St) (m : Nat)
    (hw : w.runtime = "workerd")
    (hfmt : badFormat req.contentType = false)
    (hsz : sizeExceeds req.contentLength env.MAX_BODY_SIZE = false)
    (hm : jsParseInt env.MAX_UPLOAD_COUNT = some m)
    (hq : st.uploadCount (jsOr req.cfConnectingIP "unknown") today < m)
    (hmiss : st.images.find? (fun r => r.md5 == md5fn req.body) = none)
    (hr2 : w.r2PutOk = true) (hins : w.imagesInsertOk = false) :
    uploadFromBody env w today md5fn req st =
      (.unhandled "D1 images insert failed",
       (((st.insertUpload (jsOr req.cfConnectingIP "unknown") today).log .bodyRead).log
           .imagesLookup).putR2 (makeKey env req.seed (extOf req.contentType)) req.body
         (req.contentType.getD "")) := by
  have hext := getFileExtension_of_image req.contentType hfmt
  simp [uploadFromBody, hw, hfmt, hsz, checkIPUploadCount_pass hm hq, checkFileExists,
    St.insertUpload, St.log, hmiss, uploadImageToR2, hext, hr2, hins, St.putR2,
    d1InsertImage, ExtResult.asKeyString]

theorem St.uploadCount_log (st : St) (e : Event) (ip d : String) :
    (st.log e).uploadCount ip d = st.uploadCount ip d := rfl

/-- `contentLength && parseInt(contentLength) > MAX_BODY_SIZE` is false
whenever the header is absent, present but empty (JS-falsy), or parses
as `NaN` — in all three cases the size check is skipped. -/
theorem sizeExceeds_skip {cl : Option String} (maxs : String)
    (h : cl = none ∨ cl = some "" ∨ jsParseInt (cl.getD "") = none) :
    sizeExceeds cl maxs = false := by
  rcases h with rfl | rfl | hp
  · rfl
  · rfl
  · cases cl with
    | none => rfl
    | some s =>
      simp only [Option.getD] at hp
      simp [sizeExceeds, hp]

/-- Environment with a daily quota of 1 upload per IP. -/
def envC2 : Env := ⟨"10485760", "1", "https://img.example.com", "images/"⟩

/-- State with one recorded attempt for IP `1.2.3.4` on 2026-10-11. -/
def stC2 : St := ⟨[⟨"1.2.3.4", "2026-10-11"⟩], [], [], []⟩

/-- A `/upload-from-body` request with a non-image content type. -/
def reqC2 : BodyRequest := ⟨some "text/plain", none, some "1.2.3.4", [1], "s"⟩

/-- Environment with a daily quota of 1 (for the 429 witness). -/
def envC2w : Env := ⟨"10485760", "1", "https://img.example.com", "images/"⟩

/-- State with one recorded attempt for IP `1.2.3.4` (429 witness). -/
def stC2w : St := ⟨[⟨"1.2.3.4", "2026-10-11"⟩], [], [], []⟩

/-- A valid-looking `/upload-from-body` request (429 witness). -/
def reqC2w : BodyRequest := ⟨some "image/png", none, some "1.2.3.4", [1], "s"⟩

/-- A `/upload-from-url` request for a foreign url whose fetch yields a
`text/plain` response. -/
def reqC3 : UrlRequest :=
  ⟨some "http://ext.example.com/a.txt", some "9.9.9.9",
   some ⟨some "text/plain", some "10", [1, 2]⟩, "s"⟩

/-- Environment with a 1-byte body ceiling (for the C10 witness). -/
def envC10 : Env := ⟨"1", "10", "https://img.example.com", "images/"⟩

/-- A 4-byte upload with no content-length header. -/
def reqC10 : BodyRequest := ⟨some "image/png", none, none, [1, 2, 3, 4], "s"⟩

/-- A 4-byte upload whose content-length header does not parse as a
number (`parseInt` yields `NaN`). -/
def reqC10b : BodyRequest := ⟨some "image/png", some "abc", none, [1, 2, 3, 4], "t"⟩

/-- First of two concurrent identical uploads (content `[7, 7]`). -/
def raC4 : BodyRequest := ⟨some "image/png", none, none, [7, 7], "s1"⟩

/-- Second of two concurrent identical uploads (same bytes, its own
random key seed). -/
def rbC4 : BodyRequest := ⟨some "image/png", none, none, [7, 7], "s2"⟩

/-- The racing schedule: both requests pass the dedup lookup before
either inserts its index row. -/
def schedC4 : List Bool := [true, false, true, true, false, false]

/-- A `/upload-from-body` request whose index write will fail. -/
def reqC6 : BodyRequest := ⟨some "image/png", none, none, [1], "s"⟩

/-- A `/upload-from-url` request whose index write will fail. -/
def reqC6u : UrlRequest :=
  ⟨some "http://ext.example.com/x", none, some ⟨some "image/png", none, [1]⟩, "s"⟩

/-- A run where R2 puts succeed but the D1 `images` insert throws. -/
def wC6 : World := ⟨"workerd", true, false⟩

/-! ## Claims -/

/-- C2 counterexample: a client already at its daily quota
(`MAX_UPLOAD_COUNT = 1`, one recorded attempt for this IP and day) POSTs
to `/upload-from-body` with content-type `text/plain`.  The claim says
such a request fails with RateLimited (429) regardless of its content;
the code rejects it earlier with `400 Invalid image format`. -/
theorem claim_C2_counterexample :
    jsParseInt envC2.MAX_UPLOAD_COUNT = some 1 ∧
    stC2.uploadCount "1.2.3.4" "2026-10-11" = 1 ∧
    uploadFromBody envC2 w0 "2026-10-11" md5fn0 reqC2 stC2 =
      (.response 400 (.err "Invalid image format"), stC2) := by
  decide

/-- C2 (amended): while the recorded count for an identifier and day is
strictly below the configured maximum, admission succeeds and records
exactly one more attempt; at or above the maximum it returns false
without recording, and an `/upload-from-body` request from such a client
fails with 429 and leaves the state unchanged — regardless of its body
bytes, provided its content-type and content-length headers pass the
validation that the code runs before admission. -/
theorem claim_C2_rate_limit
    (env : Env) (today ip : String) (st : St) (m : Nat)
    (hm : jsParseInt env.MAX_UPLOAD_COUNT = some m) :
    (st.uploadCount ip today < m →
      checkIPUploadCount env today ip st = (true, st.insertUpload ip today) ∧
      (st.insertUpload ip today).uploadCount ip today = st.uploadCount ip today + 1) ∧
    (m ≤ st.uploadCount ip today →
      checkIPUploadCount env today ip st = (false, st)) ∧
    (∀ (w : World) (md5fn : Bytes → String) (req : BodyRequest),
      w.runtime = "workerd" →
      jsOr req.cfConnectingIP "unknown" = ip →
      badFormat req.contentType = false →
      sizeExceeds req.contentLength env.MAX_BODY_SIZE = false →
      m ≤ st.uploadCount ip today →
      uploadFromBody env w today md5fn req st =
        (.response 429 (.err "Upload limit exceeded for this IP"), st)) := by
  refine ⟨fun hq => ⟨checkIPUploadCount_pass hm hq, St.uploadCount_insertUpload st ip today⟩,
    fun hq => checkIPUploadCount_refuse hm hq,
    fun w md5fn req hw hip hfmt hsz hq => ?_⟩
  exact uploadFromBody_rateLimited env w today md5fn req st m hw hfmt hsz hm
    (by rw [hip]; exact hq)

/-- Witness for C2: a fresh client is admitted and one attempt is
recorded; a client with one attempt under limit 1 is refused with 429. -/
theorem claim_C2_rate_limit_witness :
    (checkIPUploadCount env0 "2026-10-11" "1.2.3.4" st0 =
      (true, st0.insertUpload "1.2.3.4" "2026-10-11") ∧
     (st0.insertUpload "1.2.3.4" "2026-10-11").uploadCount "1.2.3.4" "2026-10-11" =
      st0.uploadCount "1.2.3.4" "2026-10-11" + 1) ∧
    uploadFromBody envC2w w0 "2026-10-11" md5fn0 reqC2w stC2w =
      (.response 429 (.err "Upload limit exceeded for this IP"), stC2w) :=
  ⟨(claim_C2_rate_limit env0 "2026-10-11" "1.2.3.4" st0 10 (by decide)).1 (by decide),
   (claim_C2_rate_limit envC2w "2026-10-11" "1.2.3.4" stC2w 1 (by decide)).2.2 w0 md5fn0
     reqC2w rfl (by decide) (by decide) (by decide) (by decide)⟩

/-- C3 counterexample: an under-quota client calls `/upload-from-url` on
a foreign url whose fetch yields content-type `text/plain`.  The request
is rejected with `400 Invalid image format`, yet the client's admission
counter goes from 0 to 1 — a rejected request was charged, contradicting
the claim for the `/upload-from-url` entry point. -/
theorem claim_C3_counterexample :
    (uploadFromUrl env0 w0 "2026-10-11" md5fn0 reqC3 st0).1 =
      .response 400 (.err "Invalid image format") ∧
    ((uploadFromUrl env0 w0 "2026-10-11" md5fn0 reqC3 st0).2).uploadCount
        "9.9.9.9" "2026-10-11" =
      st0.uploadCount "9.9.9.9" "2026-10-11" + 1 := by
  decide

/-- C3 (amended): on `/upload-from-body`, InvalidFormat, TooLarge and
RateLimited rejections leave the state — in particular the admission
counter — unchanged; on `/upload-from-url`, RateLimited leaves it
unchanged, but InvalidFormat (and TooLarge) rejections of the fetched
content happen after admission and charge the client exactly one
attempt. -/
theorem claim_C3_rejection_charging
    (env : Env) (w : World) (today : String) (md5fn : Bytes → String) (st : St) (m : Nat)
    (hw : w.runtime = "workerd")
    (hm : jsParseInt env.MAX_UPLOAD_COUNT = some m) :
    (∀ req : BodyRequest, badFormat req.contentType = true →
      uploadFromBody env w today md5fn req st =
        (.response 400 (.err "Invalid image format"), st)) ∧
    (∀ req : BodyRequest, badFormat req.contentType = false →
      sizeExceeds req.contentLength env.MAX_BODY_SIZE = true →
      uploadFromBody env w today md5fn req st =
        (.response 400 (.err "Image size exceeds the limit"), st)) ∧
    (∀ req : BodyRequest, badFormat req.contentType = false →
      sizeExceeds req.contentLength env.MAX_BODY_SIZE = false →
      m ≤ st.uploadCount (jsOr req.cfConnectingIP "unknown") today →
      uploadFromBody env w today md5fn req st =
        (.response 429 (.err "Upload limit exceeded for this IP"), st)) ∧
    (∀ (req : UrlRequest) (u : String), req.url = some u → u ≠ "" →
      m ≤ st.uploadCount (jsOr req.cfConnectingIP "unknown") today →
      uploadFromUrl env w today md5fn req st =
        (.response 429 (.err "Upload limit exceeded for this IP"), st)) ∧
    (∀ (req : UrlRequest) (u : String) (resp : FetchResp),
      req.url = some u → u ≠ "" →
      jsStartsWith u env.R2_BASE_URL = false →
      st.uploadCount (jsOr req.cfConnectingIP "unknown") today < m →
      req.fetchResponse = some resp →
      badFormat resp.contentType = true →
      (uploadFromUrl env w today md5fn req st).1 =
        .response 400 (.err "Invalid image format") ∧
      ((uploadFromUrl env w today md5fn req st).2).uploadCount
          (jsOr req.cfConnectingIP "unknown") today =
        st.uploadCount (jsOr req.cfConnectingIP "unknown") today + 1) ∧
    (∀ (req : UrlRequest) (u : String) (resp : FetchResp),
      req.url = some u → u ≠ "" →
      jsStartsWith u env.R2_BASE_URL = false →
      st.uploadCount (jsOr req.cfConnectingIP "unknown") today < m →
      req.fetchResponse = some resp →
      badFormat resp.contentType = false →
      sizeExceeds resp.contentLength env.MAX_BODY_SIZE = true →
      (uploadFromUrl env w today md5fn req st).1 =
        .response 400 (.err "Image size exceeds the limit") ∧
      ((uploadFromUrl env w today md5fn req st).2).uploadCount
          (jsOr req.cfConnectingIP "unknown") today =
        st.uploadCount (jsOr req.cfConnectingIP "unknown") today + 1) := by
  refine ⟨fun req hfmt => uploadFromBody_badFormat env w today md5fn req st hw hfmt,
    fun req hfmt hsz => uploadFromBody_tooLarge env w today md5fn req st hw hfmt hsz,
    fun req hfmt hsz hq =>
      uploadFromBody_rateLimited env w today md5fn req st m hw hfmt hsz hm hq,
    fun req u hurl hu hq =>
      uploadFromUrl_rateLimited env w today md5fn req st m u hw hurl hu hm hq,
    fun req u resp hurl hu hpre hq hresp hfmt => ?_,
    fun req u resp hurl hu hpre hq hresp hfmt hsz => ?_⟩
  · rw [uploadFromUrl_badFormat env w today md5fn req st m u resp hw hurl hu hpre hm hq
      hresp hfmt]
    exact ⟨rfl, by rw [St.uploadCount_log, St.uploadCount_insertUpload]⟩
  · rw [uploadFromUrl_tooLarge env w today md5fn req st m u resp hw hurl hu hpre hm hq
      hresp hfmt hsz]
    exact ⟨rfl, by rw [St.uploadCount_log, St.uploadCount_insertUpload]⟩

/-- Witness for C3: a bad-format `/upload-from-body` request is rejected
with the state untouched. -/
theorem claim_C3_rejection_charging_witness :
    uploadFromBody env0 w0 "2026-10-11" md5fn0
        ⟨some "text/plain", none, none, [1], "s"⟩ st0 =
      (.response 400 (.err "Invalid image format"), st0) :=
  (claim_C3_rejection_charging env0 w0 "2026-10-11" md5fn0 st0 10 rfl (by decide)).1
    ⟨some "text/plain", none, none, [1], "s"⟩ (by decide)

/-- C7: a `POST /upload-from-body` whose content-type is `image/png` and
whose content-length header parses to a value strictly above the parsed
`MAX_BODY_SIZE` is answered `400 {error: "Image size exceeds the limit"}`
with the state untouched: no body read, no admission write, no store. -/
theorem claim_C7_size_rejected
    (env : Env) (w : World) (today : String) (md5fn : Bytes → String)
    (req : BodyRequest) (st : St) (cl : String) (n m : Nat)
    (hw : w.runtime = "workerd")
    (hct : req.contentType = some "image/png")
    (hcl : req.contentLength = some cl)
    (hpn : jsParseInt cl = some n)
    (hpm : jsParseInt env.MAX_BODY_SIZE = some m)
    (hnm : n > m) :
    uploadFromBody env w today md5fn req st =
      (.response 400 (.err "Image size exceeds the limit"), st) := by
  have hcl' : ¬(cl = "") := by
    intro h
    rw [h] at hpn
    simp [jsParseInt] at hpn
  have hfmt : badFormat req.contentType = false := by rw [hct]; decide
  have hsz : sizeExceeds req.contentLength env.MAX_BODY_SIZE = true := by
    simp [sizeExceeds, hcl, jsTruthy, hcl', hpn, hpm, hnm]
  exact uploadFromBody_tooLarge env w today md5fn req st hw hfmt hsz

/-- Witness for C7: content-length 10485761 against MAX_BODY_SIZE
10485760 is rejected with the exact error body and no state change. -/
theorem claim_C7_size_rejected_witness :
    uploadFromBody env0 w0 "2026-10-11" md5fn0
        ⟨some "image/png", some "10485761", none, [1], "s"⟩ st0 =
      (.response 400 (.err "Image size exceeds the limit"), st0) :=
  claim_C7_size_rejected env0 w0 "2026-10-11" md5fn0
    ⟨some "image/png", some "10485761", none, [1], "s"⟩ st0 "10485761" 10485761 10485760
    rfl rfl rfl (by decide) (by decide) (by decide)

/-- C8 counterexample: two non-null content types outside the recognized
set do not degrade to `"unknown"`.  The empty string is JS-falsy, so the
`!contentType` guard throws on it; and `"toString"`, absent from the
table's own entries, hits the inherited `Object.prototype.toString`
member — truthy, so `|| 'unknown'` keeps it — and the function returns
that member instead of a sentinel string. -/
theorem claim_C8_counterexample :
    mimeTypeMap.lookup "" = none ∧
    getFileExtension (some "") = Except.error "Content-Type is required" ∧
    mimeTypeMap.lookup "toString" = none ∧
    getFileExtension (some "toString") = Except.ok (.protoMember "toString") ∧
    ExtResult.protoMember "toString" ≠ ExtResult.ext "unknown" :=
  ⟨by decide, rfl, by decide, rfl, by decide⟩

/-- C8 (amended): the mapping sends each recognized type to its
extension; a null or empty (JS-falsy) content type fails with the
`Content-Type is required` error; a non-empty content type naming an
`Object.prototype` member (`constructor`, `toString`, `__proto__`, ...)
leaks that truthy inherited member instead of any string sentinel; and
every other non-null, non-empty unrecognized content type degrades to
`"unknown"`. -/
theorem claim_C8_extension_mapping :
    getFileExtension (some "image/png") = .ok (.ext "png") ∧
    getFileExtension (some "image/jpeg") = .ok (.ext "jpg") ∧
    getFileExtension (some "image/gif") = .ok (.ext "gif") ∧
    getFileExtension (some "image/webp") = .ok (.ext "webp") ∧
    getFileExtension (some "image/bmp") = .ok (.ext "bmp") ∧
    getFileExtension (some "image/tiff") = .ok (.ext "tiff") ∧
    getFileExtension (some "image/svg+xml") = .ok (.ext "svg") ∧
    getFileExtension none = .error "Content-Type is required" ∧
    getFileExtension (some "") = .error "Content-Type is required" ∧
    (∀ s : String, s ∈ objectProtoProps → mimeTypeMap.lookup s = none →
      getFileExtension (some s) = .ok (.protoMember s)) ∧
    (∀ s : String, s ≠ "" → mimeTypeMap.lookup s = none → s ∉ objectProtoProps →
      getFileExtension (some s) = .ok (.ext "unknown")) := by
  refine ⟨rfl, rfl, rfl, rfl, rfl, rfl, rfl, rfl, rfl, fun s hmem hl => ?_,
    fun s hs hl hnp => ?_⟩
  · have hb : (s == "") = false := by
      simp only [objectProtoProps, List.mem_cons, List.not_mem_nil, or_false] at hmem
      rcases hmem with rfl|rfl|rfl|rfl|rfl|rfl|rfl|rfl|rfl|rfl|rfl|rfl <;> decide
    simp [getFileExtension, jsTruthy, hb, hl, List.contains, hmem]
  · have hb : (s == "") = false := beq_eq_false_iff_ne.mpr hs
    simp [getFileExtension, jsTruthy, hb, hl, List.contains, hnp]

/-- Witness for C8: `image/xyz` is unmapped, non-empty and no prototype
member, so it yields `"unknown"`; `toString` leaks the inherited
member. -/
theorem claim_C8_extension_mapping_witness :
    getFileExtension (some "image/xyz") = Except.ok (.ext "unknown") ∧
    getFileExtension (some "toString") = Except.ok (.protoMember "toString") :=
  ⟨claim_C8_extension_mapping.2.2.2.2.2.2.2.2.2.2 "image/xyz" (by decide) (by decide)
      (by decide),
   claim_C8_extension_mapping.2.2.2.2.2.2.2.2.2.1 "toString" (by decide) (by decide)⟩

/-- C1: two sequential `/upload-from-body` requests with byte-identical
bodies, both valid and both admitted, starting from a state where the
fingerprint is absent: the first stores a new object and a new index row
and returns a canonical URL `u`; the second computes the same
fingerprint, hits the dedup index, and returns the same `u` while
writing nothing to the object store and nothing to the `images` index. -/
theorem claim_C1_sequential_dedup
    (env : Env) (w : World) (today : String) (md5fn : Bytes → String)
    (req1 req2 : BodyRequest) (st : St) (m : Nat)
    (hw : w.runtime = "workerd")
    (hr2 : w.r2PutOk = true) (hins : w.imagesInsertOk = true)
    (hm : jsParseInt env.MAX_UPLOAD_COUNT = some m)
    (hfmt1 : badFormat req1.contentType = false)
    (hsz1 : sizeExceeds req1.contentLength env.MAX_BODY_SIZE = false)
    (hfmt2 : badFormat req2.contentType = false)
    (hsz2 : sizeExceeds req2.contentLength env.MAX_BODY_SIZE = false)
    (hbody : req2.body = req1.body)
    (hq1 : st.uploadCount (jsOr req1.cfConnectingIP "unknown") today < m)
    (hq2 : st.uploadCount (jsOr req2.cfConnectingIP "unknown") today + 1 < m)
    (hmiss : st.images.find? (fun r => r.md5 == md5fn req1.body) = none) :
    ∃ u : String,
      (uploadFromBody env w today md5fn req1 st).1 = .response 200 (.ok u) ∧
      (uploadFromBody env w today md5fn req2
          (uploadFromBody env w today md5fn req1 st).2).1 = .response 200 (.ok u) ∧
      (uploadFromBody env w today md5fn req1 st).2.r2.length = st.r2.length + 1 ∧
      (uploadFromBody env w today md5fn req1 st).2.images.length = st.images.length + 1 ∧
      (uploadFromBody env w today md5fn req2
          (uploadFromBody env w today md5fn req1 st).2).2.r2 =
        (uploadFromBody env w today md5fn req1 st).2.r2 ∧
      (uploadFromBody env w today md5fn req2
          (uploadFromBody env w today md5fn req1 st).2).2.images =
        (uploadFromBody env w today md5fn req1 st).2.images := by
  have h1 := uploadFromBody_accept_miss env w today md5fn req1 st m hw hfmt1 hsz1 hm hq1
    hr2 hins hmiss
  have hq2' : (afterBodyMiss env today md5fn req1 st).uploadCount
      (jsOr req2.cfConnectingIP "unknown") today < m := by
    rw [afterBodyMiss_uploadCount]
    exact Nat.lt_of_le_of_lt (St.uploadCount_insertUpload_le st _ today _ today) hq2
  have hhit : (afterBodyMiss env today md5fn req1 st).images.find?
      (fun r => r.md5 == md5fn req2.body) =
      some ⟨canonicalUrl env req1.seed req1.contentType, md5fn req1.body, none⟩ := by
    rw [afterBodyMiss_images]
    exact List.find?_cons_of_pos _ (by simp [hbody])
  have h2 := uploadFromBody_accept_hit env w today md5fn req2
    (afterBodyMiss env today md5fn req1 st) m
    ⟨canonicalUrl env req1.seed req1.contentType, md5fn req1.body, none⟩
    hw hfmt2 hsz2 hm hq2' hhit
  refine ⟨canonicalUrl env req1.seed req1.contentType, ?_, ?_, ?_, ?_, ?_, ?_⟩ <;>
    rw [h1] <;> try rw [h2]
  all_goals rfl

/-- Witness for C1: two identical 3-byte PNG-typed uploads; the second
returns the first's URL with no new object and no new index row. -/
theorem claim_C1_sequential_dedup_witness :
    ∃ u : String,
      (uploadFromBody env0 w0 "2026-10-11" md5fn0
          ⟨some "image/png", some "3", none, [1, 2, 3], "s1"⟩ st0).1 =
        .response 200 (.ok u) ∧
      (uploadFromBody env0 w0 "2026-10-11" md5fn0
          ⟨some "image/png", some "3", none, [1, 2, 3], "s2"⟩
          (uploadFromBody env0 w0 "2026-10-11" md5fn0
            ⟨some "image/png", some "3", none, [1, 2, 3], "s1"⟩ st0).2).1 =
        .response 200 (.ok u) ∧
      (uploadFromBody env0 w0 "2026-10-11" md5fn0
          ⟨some "image/png", some "3", none, [1, 2, 3], "s1"⟩ st0).2.r2.length =
        st0.r2.length + 1 ∧
      (uploadFromBody env0 w0 "2026-10-11" md5fn0
          ⟨some "image/png", some "3", none, [1, 2, 3], "s1"⟩ st0).2.images.length =
        st0.images.length + 1 ∧
      (uploadFromBody env0 w0 "2026-10-11" md5fn0
          ⟨some "image/png", some "3", none, [1, 2, 3], "s2"⟩
          (uploadFromBody env0 w0 "2026-10-11" md5fn0
            ⟨some "image/png", some "3", none, [1, 2, 3], "s1"⟩ st0).2).2.r2 =
        (uploadFromBody env0 w0 "2026-10-11" md5fn0
          ⟨some "image/png", some "3", none, [1, 2, 3], "s1"⟩ st0).2.r2 ∧
      (uploadFromBody env0 w0 "2026-10-11" md5fn0
          ⟨some "image/png", some "3", none, [1, 2, 3], "s2"⟩
          (uploadFromBody env0 w0 "2026-10-11" md5fn0
            ⟨some "image/png", some "3", none, [1, 2, 3], "s1"⟩ st0).2).2.images =
        (uploadFromBody env0 w0 "2026-10-11" md5fn0
          ⟨some "image/png", some "3", none, [1, 2, 3], "s1"⟩ st0).2.images :=
  claim_C1_sequential_dedup env0 w0 "2026-10-11" md5fn0
    ⟨some "image/png", some "3", none, [1, 2, 3], "s1"⟩
    ⟨some "image/png", some "3", none, [1, 2, 3], "s2"⟩ st0 10
    rfl rfl rfl (by decide) (by decide) (by decide) (by decide) (by decide) rfl
    (by decide) (by decide) (by decide)

/-- C5: an `/upload-from-url` request (from an admitted client) whose
`url` is a canonical URL of this system — the base URL with a key as
path, exactly the shape `uploadImageToR2` returns — is echoed back as a
`200` success immediately: the only state change is the admission
insert, so no outbound fetch, no dedup lookup, no object-store write and
no index write happen. -/
theorem claim_C5_own_url_short_circuit
    (env : Env) (w : World) (today : String) (md5fn : Bytes → String)
    (req : UrlRequest) (st : St) (m : Nat) (k : String)
    (hw : w.runtime = "workerd")
    (hurl : req.url = some (urlWithPathname env.R2_BASE_URL k))
    (hm : jsParseInt env.MAX_UPLOAD_COUNT = some m)
    (hq : st.uploadCount (jsOr req.cfConnectingIP "unknown") today < m) :
    uploadFromUrl env w today md5fn req st =
      (.response 200 (.ok (urlWithPathname env.R2_BASE_URL k)),
       st.insertUpload (jsOr req.cfConnectingIP "unknown") today) ∧
    (st.insertUpload (jsOr req.cfConnectingIP "unknown") today).r2 = st.r2 ∧
    (st.insertUpload (jsOr req.cfConnectingIP "unknown") today).images = st.images ∧
    (st.insertUpload (jsOr req.cfConnectingIP "unknown") today).events =
      st.events ++ [.uploadsInsert] :=
  ⟨uploadFromUrl_own_url env w today md5fn req st m _ hw hurl
      (urlWithPathname_ne env.R2_BASE_URL k)
      (jsStartsWith_urlWithPathname env.R2_BASE_URL k) hm hq,
   rfl, rfl, rfl⟩

/-- Witness for C5: the canonical URL of an earlier store under key
`images/s1.png` is echoed back with only the admission row added. -/
theorem claim_C5_own_url_short_circuit_witness :
    uploadFromUrl env0 w0 "2026-10-11" md5fn0
        ⟨some (urlWithPathname env0.R2_BASE_URL "images/s1.png"), none, none, "s"⟩ st0 =
      (.response 200 (.ok (urlWithPathname env0.R2_BASE_URL "images/s1.png")),
       st0.insertUpload (jsOr none "unknown") "2026-10-11") ∧
    (st0.insertUpload (jsOr none "unknown") "2026-10-11").r2 = st0.r2 ∧
    (st0.insertUpload (jsOr none "unknown") "2026-10-11").images = st0.images ∧
    (st0.insertUpload (jsOr none "unknown") "2026-10-11").events =
      st0.events ++ [.uploadsInsert] :=
  claim_C5_own_url_short_circuit env0 w0 "2026-10-11" md5fn0
    ⟨some (urlWithPathname env0.R2_BASE_URL "images/s1.png"), none, none, "s"⟩ st0 10
    "images/s1.png" rfl rfl (by decide) (by decide)

/-- C9: an `/upload-from-url` request whose `url` merely starts with
`R2_BASE_URL` — no stored object need exist at it — is echoed back as a
`200` success without any lookup, fetch, store or index write; the only
effect is the admission insert, so the request still consumes one unit
of the client's daily quota. -/
theorem claim_C9_prefix_echo_unverified
    (env : Env) (w : World) (today : String) (md5fn : Bytes → String)
    (req : UrlRequest) (st : St) (m : Nat) (u : String)
    (hw : w.runtime = "workerd")
    (hurl : req.url = some u) (hu : u ≠ "")
    (hpre : jsStartsWith u env.R2_BASE_URL = true)
    (hm : jsParseInt env.MAX_UPLOAD_COUNT = some m)
    (hq : st.uploadCount (jsOr req.cfConnectingIP "unknown") today < m) :
    uploadFromUrl env w today md5fn req st =
      (.response 200 (.ok u),
       st.insertUpload (jsOr req.cfConnectingIP "unknown") today) ∧
    (st.insertUpload (jsOr req.cfConnectingIP "unknown") today).r2 = st.r2 ∧
    (st.insertUpload (jsOr req.cfConnectingIP "unknown") today).images = st.images ∧
    (st.insertUpload (jsOr req.cfConnectingIP "unknown") today).events =
      st.events ++ [.uploadsInsert] ∧
    (st.insertUpload (jsOr req.cfConnectingIP "unknown") today).uploadCount
        (jsOr req.cfConnectingIP "unknown") today =
      st.uploadCount (jsOr req.cfConnectingIP "unknown") today + 1 :=
  ⟨uploadFromUrl_own_url env w today md5fn req st m u hw hurl hu hpre hm hq,
   rfl, rfl, rfl, St.uploadCount_insertUpload st _ today⟩

/-- Witness for C9: a never-stored url under the base prefix is echoed
back as a success while the quota counter moves from 0 to 1. -/
theorem claim_C9_prefix_echo_unverified_witness :
    uploadFromUrl env0 w0 "2026-10-11" md5fn0
        ⟨some "https://img.example.com/never-stored", none, none, "s"⟩ st0 =
      (.response 200 (.ok "https://img.example.com/never-stored"),
       st0.insertUpload (jsOr none "unknown") "2026-10-11") ∧
    (st0.insertUpload (jsOr none "unknown") "2026-10-11").r2 = st0.r2 ∧
    (st0.insertUpload (jsOr none "unknown") "2026-10-11").images = st0.images ∧
    (st0.insertUpload (jsOr none "unknown") "2026-10-11").events =
      st0.events ++ [.uploadsInsert] ∧
    (st0.insertUpload (jsOr none "unknown") "2026-10-11").uploadCount
        (jsOr none "unknown") "2026-10-11" =
      st0.uploadCount (jsOr none "unknown") "2026-10-11" + 1 :=
  claim_C9_prefix_echo_unverified env0 w0 "2026-10-11" md5fn0
    ⟨some "https://img.example.com/never-stored", none, none, "s"⟩ st0 10
    "https://img.example.com/never-stored" rfl rfl (by decide) (by decide)
    (by decide) (by decide)

/-- C10: the size ceiling is enforced only for a truthy, numerically
parsing content-length header: when the header is absent, present but
empty (JS-falsy), or parses as `NaN`, the check is skipped on either
entry point, and an otherwise valid, admitted, dedup-missing request
succeeds with the full body — of arbitrary length — materialized and
stored (the new R2 object holds exactly the request bytes), so
`/upload-from-body` never rejects a request that omits content-length,
and `/upload-from-url` never rejects an upstream response that omits
it. -/
theorem claim_C10_no_content_length_no_limit
    (env : Env) (w : World) (today : String) (md5fn : Bytes → String) (st : St) (m : Nat)
    (hw : w.runtime = "workerd")
    (hr2 : w.r2PutOk = true) (hins : w.imagesInsertOk = true)
    (hm : jsParseInt env.MAX_UPLOAD_COUNT = some m) :
    (∀ req : BodyRequest,
      req.contentLength = none ∨ req.contentLength = some "" ∨
        jsParseInt (req.contentLength.getD "") = none →
      badFormat req.contentType = false →
      st.uploadCount (jsOr req.cfConnectingIP "unknown") today < m →
      st.images.find? (fun r => r.md5 == md5fn req.body) = none →
      uploadFromBody env w today md5fn req st =
        (.response 200 (.ok (canonicalUrl env req.seed req.contentType)),
         afterBodyMiss env today md5fn req st) ∧
      (afterBodyMiss env today md5fn req st).r2 =
        ⟨makeKey env req.seed (extOf req.contentType), req.body,
         req.contentType.getD ""⟩ :: st.r2) ∧
    (∀ (req : UrlRequest) (u : String) (resp : FetchResp),
      req.url = some u → u ≠ "" →
      jsStartsWith u env.R2_BASE_URL = false →
      resp.contentLength = none ∨ resp.contentLength = some "" ∨
        jsParseInt (resp.contentLength.getD "") = none →
      badFormat resp.contentType = false →
      st.uploadCount (jsOr req.cfConnectingIP "unknown") today < m →
      req.fetchResponse = some resp →
      st.images.find? (fun r => r.md5 == md5fn resp.body) = none →
      uploadFromUrl env w today md5fn req st =
        (.response 200 (.ok (canonicalUrl env req.seed resp.contentType)),
         afterUrlMiss env today md5fn req resp u st) ∧
      (afterUrlMiss env today md5fn req resp u st).r2 =
        ⟨makeKey env req.seed (extOf resp.contentType), resp.body,
         resp.contentType.getD ""⟩ :: st.r2) := by
  constructor
  · intro req hcl hfmt hq hmiss
    exact ⟨uploadFromBody_accept_miss env w today md5fn req st m hw hfmt
      (sizeExceeds_skip env.MAX_BODY_SIZE hcl) hm hq hr2 hins hmiss, rfl⟩
  · intro req u resp hurl hu hpre hcl hfmt hq hresp hmiss
    exact ⟨uploadFromUrl_accept_miss env w today md5fn req st m u resp hw hurl hu hpre
      hm hq hresp hfmt (sizeExceeds_skip env.MAX_BODY_SIZE hcl) hr2 hins hmiss, rfl⟩

/-- Witness for C10: with `MAX_BODY_SIZE = 1`, a 4-byte body with no
content-length header, and another whose content-length is the
non-numeric `"abc"`, are both accepted and stored in full. -/
theorem claim_C10_no_content_length_no_limit_witness :
    jsParseInt envC10.MAX_BODY_SIZE = some 1 ∧
    reqC10.body.length = 4 ∧
    (uploadFromBody envC10 w0 "2026-10-11" md5fn0 reqC10 st0 =
      (.response 200 (.ok (canonicalUrl envC10 reqC10.seed reqC10.contentType)),
       afterBodyMiss envC10 "2026-10-11" md5fn0 reqC10 st0) ∧
     (afterBodyMiss envC10 "2026-10-11" md5fn0 reqC10 st0).r2 =
       ⟨makeKey envC10 reqC10.seed (extOf reqC10.contentType), reqC10.body,
        reqC10.contentType.getD ""⟩ :: st0.r2) ∧
    (uploadFromBody envC10 w0 "2026-10-11" md5fn0 reqC10b st0 =
      (.response 200 (.ok (canonicalUrl envC10 reqC10b.seed reqC10b.contentType)),
       afterBodyMiss envC10 "2026-10-11" md5fn0 reqC10b st0) ∧
     (afterBodyMiss envC10 "2026-10-11" md5fn0 reqC10b st0).r2 =
       ⟨makeKey envC10 reqC10b.seed (extOf reqC10b.contentType), reqC10b.body,
        reqC10b.contentType.getD ""⟩ :: st0.r2) :=
  ⟨by decide, by decide,
   (claim_C10_no_content_length_no_limit envC10 w0 "2026-10-11" md5fn0 st0 10
      rfl rfl rfl (by decide)).1 reqC10 (Or.inl rfl) (by decide) (by decide) (by decide),
   (claim_C10_no_content_length_no_limit envC10 w0 "2026-10-11" md5fn0 st0 10
      rfl rfl rfl (by decide)).1 reqC10b (Or.inr (Or.inr (by decide))) (by decide)
     (by decide) (by decide)⟩

/-- C4 counterexample: the dedup sequence is a naive
check-absent-then-insert, not an atomic conditional write.  Interleaving
two byte-identical uploads so that both pass `checkFileExists` before
either index insert (`schedC4`) stores **two** objects for the one
fingerprint; the first request's index insert wins and it resolves to
its URL, while the second request's insert violates the `UNIQUE`
constraint on `images.md5` and throws, so the requests do **not** both
resolve to one canonical URL and more than one object was stored — the
loser's object is left orphaned. -/
theorem claim_C4_counterexample :
    raC4.body = rbC4.body ∧
    (runSched env0 w0 md5fn0 raC4 rbC4 schedC4 .start .start st0).1 =
      .finished "https://img.example.com/images/s1.png" ∧
    (runSched env0 w0 md5fn0 raC4 rbC4 schedC4 .start .start st0).2.1 =
      .failed "UNIQUE constraint failed: images.md5" ∧
    (runSched env0 w0 md5fn0 raC4 rbC4 schedC4 .start .start st0).2.2.r2.length = 2 ∧
    (runSched env0 w0 md5fn0 raC4 rbC4 schedC4 .start .start st0).2.2.images.length = 1 := by
  decide

/-- C4 (amended): the code's check-fingerprint-absent-then-insert is a
naive read-then-write, so atomicity only holds without interleaving:
when the two byte-identical requests run serialized (one completes its
lookup–store–insert before the other starts), exactly one object is
stored and both requests resolve to the same canonical URL; under an
interleaving where both pass the lookup before either insert, a second
object is stored (and then orphaned) and the losing request fails with
the unique-constraint violation instead of resolving to the winner's
URL (see the counterexample). -/
theorem claim_C4_serialized_single_object
    (env : Env) (w : World) (md5fn : Bytes → String) (ra rb : BodyRequest) (st : St)
    (hr2 : w.r2PutOk = true) (hins : w.imagesInsertOk = true)
    (hct : badFormat ra.contentType = false)
    (hbody : rb.body = ra.body)
    (hmiss : st.images.find? (fun r => r.md5 == md5fn ra.body) = none) :
    runSched env w md5fn ra rb [true, true, true, false, false, false] .start .start st =
      (.finished (canonicalUrl env ra.seed ra.contentType),
       .finished (canonicalUrl env ra.seed ra.contentType),
       ((((st.log .imagesLookup).putR2 (makeKey env ra.seed (extOf ra.contentType)) ra.body
           (ra.contentType.getD "")).insertImage (canonicalUrl env ra.seed ra.contentType)
         (md5fn ra.body) none).log .imagesLookup)) ∧
    ((((st.log .imagesLookup).putR2 (makeKey env ra.seed (extOf ra.contentType)) ra.body
        (ra.contentType.getD "")).insertImage (canonicalUrl env ra.seed ra.contentType)
      (md5fn ra.body) none).log .imagesLookup).r2.length = st.r2.length + 1 := by
  have hext := getFileExtension_of_image ra.contentType hct
  refine ⟨?_, rfl⟩
  simp [runSched, dstep, checkFileExists, hmiss, uploadImageToR2, hext, hr2, hins,
    St.log, St.putR2, St.insertImage, canonicalUrl, hbody, d1InsertImage,
    ExtResult.asKeyString]

/-- Witness for C4 (amended): the two identical uploads of the race
fixtures, run serialized, share one object and one URL. -/
theorem claim_C4_serialized_single_object_witness :
    runSched env0 w0 md5fn0 raC4 rbC4 [true, true, true, false, false, false]
        .start .start st0 =
      (.finished (canonicalUrl env0 raC4.seed raC4.contentType),
       .finished (canonicalUrl env0 raC4.seed raC4.contentType),
       ((((st0.log .imagesLookup).putR2 (makeKey env0 raC4.seed (extOf raC4.contentType))
           raC4.body (raC4.contentType.getD "")).insertImage
         (canonicalUrl env0 raC4.seed raC4.contentType) (md5fn0 raC4.body) none).log
         .imagesLookup)) ∧
    ((((st0.log .imagesLookup).putR2 (makeKey env0 raC4.seed (extOf raC4.contentType))
        raC4.body (raC4.contentType.getD "")).insertImage
      (canonicalUrl env0 raC4.seed raC4.contentType) (md5fn0 raC4.body) none).log
      .imagesLookup).r2.length = st0.r2.length + 1 :=
  claim_C4_serialized_single_object env0 w0 md5fn0 raC4 rbC4 st0 rfl rfl (by decide)
    rfl (by decide)

/-- C6 counterexample: a valid, admitted, dedup-missing
`/upload-from-body` request whose D1 `images` insert fails after a
successful R2 put does not terminate in a structured JSON error
response: the exception escapes the handler (which has no try/catch),
leaving the freshly stored object orphaned. -/
theorem claim_C6_counterexample :
    (uploadFromBody env0 wC6 "2026-10-11" md5fn0 reqC6 st0).1 =
      .unhandled "D1 images insert failed" ∧
    (uploadFromBody env0 wC6 "2026-10-11" md5fn0 reqC6 st0).2.r2.length = 1 ∧
    (uploadFromBody env0 wC6 "2026-10-11" md5fn0 reqC6 st0).2.images.length = 0 := by
  decide

/-- C6 (amended): the claim does not hold as stated.  On
`/upload-from-url`, failures raised inside the handler's try/catch are
surfaced as the structured `500 {error: 'Failed to upload image'}`: a
throwing outbound fetch, a failing R2 put, and a failing `images` index
write after a successful put (the orphaned object remaining) all
produce that structured response.  On `/upload-from-body`, which has no
try/catch, the same index-write failure after a successful store escapes
as an unhandled exception with no StoreFailed-class body, leaving the
stored object orphaned and unindexed.  (The JSON body parse and the
admission D1 calls of `/upload-from-url` sit outside its try block in
the source and would likewise escape; they are modelled as non-throwing
external steps here, so no conjunct speaks about them.) -/
theorem claim_C6_error_surfacing
    (env : Env) (w : World) (today : String) (md5fn : Bytes → String) (st : St) (m : Nat)
    (hw : w.runtime = "workerd")
    (hm : jsParseInt env.MAX_UPLOAD_COUNT = some m) :
    (∀ (req : UrlRequest) (u : String), req.url = some u → u ≠ "" →
      jsStartsWith u env.R2_BASE_URL = false →
      st.uploadCount (jsOr req.cfConnectingIP "unknown") today < m →
      req.fetchResponse = none →
      (uploadFromUrl env w today md5fn req st).1 =
        .response 500 (.err "Failed to upload image")) ∧
    (∀ (req : UrlRequest) (u : String) (resp : FetchResp),
      req.url = some u → u ≠ "" →
      jsStartsWith u env.R2_BASE_URL = false →
      st.uploadCount (jsOr req.cfConnectingIP "unknown") today < m →
      req.fetchResponse = some resp →
      badFormat resp.contentType = false →
      sizeExceeds resp.contentLength env.MAX_BODY_SIZE = false →
      st.images.find? (fun r => r.md5 == md5fn resp.body) = none →
      w.r2PutOk = false →
      (uploadFromUrl env w today md5fn req st).1 =
        .response 500 (.err "Failed to upload image")) ∧
    (∀ (req : UrlRequest) (u : String) (resp : FetchResp),
      req.url = some u → u ≠ "" →
      jsStartsWith u env.R2_BASE_URL = false →
      st.uploadCount (jsOr req.cfConnectingIP "unknown") today < m →
      req.fetchResponse = some resp →
      badFormat resp.contentType = false →
      sizeExceeds resp.contentLength env.MAX_BODY_SIZE = false →
      st.images.find? (fun r => r.md5 == md5fn resp.body) = none →
      w.r2PutOk = true → w.imagesInsertOk = false →
      (uploadFromUrl env w today md5fn req st).1 =
        .response 500 (.err "Failed to upload image") ∧
      (uploadFromUrl env w today md5fn req st).2.r2.length = st.r2.length + 1 ∧
      (uploadFromUrl env w today md5fn req st).2.images = st.images) ∧
    (∀ (req : BodyRequest),
      w.r2PutOk = true → w.imagesInsertOk = false →
      badFormat req.contentType = false →
      sizeExceeds req.contentLength env.MAX_BODY_SIZE = false →
      st.uploadCount (jsOr req.cfConnectingIP "unknown") today < m →
      st.images.find? (fun r => r.md5 == md5fn req.body) = none →
      (uploadFromBody env w today md5fn req st).1 = .unhandled "D1 images insert failed" ∧
      (uploadFromBody env w today md5fn req st).2.r2.length = st.r2.length + 1 ∧
      (uploadFromBody env w today md5fn req st).2.images = st.images) := by
  refine ⟨fun req u hurl hu hpre hq hresp => ?_,
    fun req u resp hurl hu hpre hq hresp hfmt hsz hmiss hr2 => ?_,
    fun req u resp hurl hu hpre hq hresp hfmt hsz hmiss hr2 hins => ?_,
    fun req hr2 hins hfmt hsz hq hmiss => ?_⟩
  · rw [uploadFromUrl_fetchThrow env w today md5fn req st m u hw hurl hu hpre hm hq hresp]
  · rw [uploadFromUrl_putFails env w today md5fn req st m u resp hw hurl hu hpre hm hq
      hresp hfmt hsz hmiss hr2]
  · rw [uploadFromUrl_insertFails env w today md5fn req st m u resp hw hurl hu hpre hm hq
      hresp hfmt hsz hmiss hr2 hins]
    exact ⟨rfl, rfl, rfl⟩
  · rw [uploadFromBody_insertFails env w today md5fn req st m hw hfmt hsz hm hq hmiss
      hr2 hins]
    exact ⟨rfl, rfl, rfl⟩

/-- Witness for C6 (amended): with a failing index write after a
successful put, the from-url entry answers the structured 500 (object
orphaned) while the from-body entry leaks the exception (object also
orphaned). -/
theorem claim_C6_error_surfacing_witness :
    ((uploadFromUrl env0 wC6 "2026-10-11" md5fn0 reqC6u st0).1 =
      .response 500 (.err "Failed to upload image") ∧
     (uploadFromUrl env0 wC6 "2026-10-11" md5fn0 reqC6u st0).2.r2.length =
      st0.r2.length + 1 ∧
     (uploadFromUrl env0 wC6 "2026-10-11" md5fn0 reqC6u st0).2.images = st0.images) ∧
    ((uploadFromBody env0 wC6 "2026-10-11" md5fn0 reqC6 st0).1 =
      .unhandled "D1 images insert failed" ∧
     (uploadFromBody env0 wC6 "2026-10-11" md5fn0 reqC6 st0).2.r2.length =
      st0.r2.length + 1 ∧
     (uploadFromBody env0 wC6 "2026-10-11" md5fn0 reqC6 st0).2.images = st0.images) :=
  ⟨(claim_C6_error_surfacing env0 wC6 "2026-10-11" md5fn0 st0 10 rfl (by decide)).2.2.1
      reqC6u "http://ext.example.com/x" ⟨some "image/png", none, [1]⟩ rfl (by decide)
      (by decide) (by decide) rfl (by decide) (by decide) (by decide) rfl rfl,
   (claim_C6_error_surfacing env0 wC6 "2026-10-11" md5fn0 st0 10 rfl (by decide)).2.2.2
      reqC6 rfl rfl (by decide) (by decide) (by decide) (by decide)⟩

end R2Up
